import Mathlib

/-!
Verification of the HVDC logistics classification-and-validation pipeline.

The definitions below are a shallow embedding of the decision logic of the
repository:

* `scripts/logistics_mapper.py` (class `HVDCLogisticsMapper`):
  `determine_step`, `detect_site`, `refined_hvdc_step`, and the lead-time
  part of `process_data`;
* `scripts/logistics/mapper.py` (class `HVDCLogisticsMapper`):
  `updated_hvdc_step_logic`, `classify_status`, `assign_risk`,
  `_select_and_filter_columns`;
* `scripts/create_sample_data.py` (class `HVDCDataGenerator`):
  the lead-time status lambda of `process_data`;
* `scripts/data/validator.py` (class `HVDCQualityChecker`): the seven
  check methods and `validate_dataframe`.

Dates are modelled as epoch-day integers (`ℤ`); a missing timestamp
(pandas `NaT` after `to_datetime(..., errors='coerce')`) is `none`.
Python floats that carry exact data (percentages, thresholds, numeric
cells) are modelled as rationals (`ℚ`).  Pandas cell values are modelled
by the inductive `PyVal`; a pandas-null cell (`None`/`NaN`) is
`PyVal.vNone`.  The mutable `self.validation_results` list of the quality
checker is modelled by explicit state passing.
-/

namespace HVDC

/-! ### String utilities

`containsSub hay needle` models Python's substring test `needle in hay`. -/

def startsWithChars : List Char → List Char → Bool
  | _, [] => true
  | [], _ :: _ => false
  | a :: as, b :: bs => a == b && startsWithChars as bs

def hasSubChars : List Char → List Char → Bool
  | [], needle => needle.isEmpty
  | a :: t, needle => startsWithChars (a :: t) needle || hasSubChars t needle

def containsSub (hay needle : String) : Bool :=
  hasSubChars hay.toList needle.toList

/-- Python `str.lower()`, character-wise (all keyword matching in the
source is over ASCII text). -/
def toLowerStr (s : String) : String :=
  String.mk (s.toList.map Char.toLower)

/-- Python `not s.strip()`: true iff the string is empty or all
whitespace. -/
def isBlankStr (s : String) : Bool :=
  s.toList.all Char.isWhitespace

/-! ### scripts/logistics_mapper.py — milestone columns and step/site logic

A raw row, restricted to the fields the embedded functions read.  The four
milestone fields correspond to the columns `"ATA"`, `"Customs\n Start"`,
`"DSV\n Outdoor"` and `"MOSB"` after `pd.to_datetime(..., errors='coerce')`;
the four site fields model `col in row and pd.notna(row[col])` for the
site-indicator columns `"MIR"`, `"SHU"`, `"DAS"`, `"AGI"`.  The
description field is the `"SUB DESCRIPTION"` cell, `none` when it is not a
string (`NaN`, `None`, or a non-string value, rejected by the
`isinstance(desc, str)` guard of `refined_hvdc_step`). -/

structure RawRecord where
  ata : Option ℤ
  customs : Option ℤ
  dsv : Option ℤ
  mosb : Option ℤ
  mir : Bool
  shu : Bool
  das : Bool
  agi : Bool
  subDescription : Option String
deriving DecidableEq

/-- Embedding of `HVDCLogisticsMapper.determine_step` (logistics_mapper.py
lines 33-43): terminal-first check of the four milestone columns. -/
def determine_step (r : RawRecord) : ℕ :=
  if r.mosb.isSome then 5
  else if r.dsv.isSome then 4
  else if r.customs.isSome then 3
  else if r.ata.isSome then 2
  else 1

/-- Embedding of `HVDCLogisticsMapper.detect_site` (logistics_mapper.py
lines 45-55): first present indicator among MIR, SHU, DAS, AGI wins,
otherwise `"UNK"` (with a non-fatal warning in the source). -/
def detect_site (r : RawRecord) : String :=
  if r.mir then "MIR"
  else if r.shu then "SHU"
  else if r.das then "DAS"
  else if r.agi then "AGI"
  else "UNK"

/-- Day difference `(later - earlier).dt.days` on optional dates: absent if
either endpoint is missing (pandas yields `NaN`). -/
def optSub (later earlier : Option ℤ) : Option ℤ :=
  match later, earlier with
  | some l, some e => some (l - e)
  | _, _ => none

/-- The four lead-time columns produced by step 5 of
`HVDCLogisticsMapper.process_data` (logistics_mapper.py lines 321-327). -/
structure LeadTimes where
  arrivalToCustoms : Option ℤ
  customsToWarehouse : Option ℤ
  warehouseToSite : Option ℤ
  totalLeadTime : Option ℤ
deriving DecidableEq

/-- Embedding of the lead-time computation of
`HVDCLogisticsMapper.process_data` (logistics_mapper.py lines 321-327):
the four raw day-deltas, then `+5` on the arrival→customs delta for rows
whose `SITE` is in `['AGI', 'DAS']` (the island mask).  Adding 5 to an
absent delta (`NaN + 5` in pandas) leaves it absent, hence `Option.map`. -/
def process_leadtimes (r : RawRecord) : LeadTimes :=
  let site := detect_site r
  let d1 := optSub r.customs r.ata
  let d2 := optSub r.dsv r.customs
  let d3 := optSub r.mosb r.dsv
  let total := optSub r.mosb r.ata
  let d1 := if site = "AGI" ∨ site = "DAS" then d1.map (· + 5) else d1
  ⟨d1, d2, d3, total⟩

/-! ### scripts/logistics/mapper.py — status and risk -/

/-- Embedding of `classify_status` (logistics/mapper.py lines 94-102),
applied to the `리드타임(일)` column: absent ⇒ `"미도착"` (NOT_ARRIVED),
`≤ 30` ⇒ `"양호"` (ON_TRACK), `≤ 60` ⇒ `"주의"` (CAUTION), else `"지연"`
(DELAYED). -/
def classify_status (leadTime : Option ℤ) : String :=
  match leadTime with
  | none => "미도착"
  | some t => if t ≤ 30 then "양호" else if t ≤ 60 then "주의" else "지연"

/-- Embedding of the lead-time status lambda of
`HVDCDataGenerator.process_data` (create_sample_data.py lines 130-133):
same shape as `classify_status` but with CAUTION/DELAYED boundary 90. -/
def sample_classify_status (leadTime : Option ℤ) : String :=
  match leadTime with
  | none => "미도착"
  | some t => if t ≤ 30 then "양호" else if t ≤ 90 then "주의" else "지연"

/-- Modelled from the spec: the status derivation with the CAUTION/DELAYED
boundary exposed as a caller-supplied parameter (spec §4.4 and §9 ask for
this; neither source call site actually takes it as a parameter). -/
def classify_status_with (boundary : ℤ) (leadTime : Option ℤ) : String :=
  match leadTime with
  | none => "미도착"
  | some t => if t ≤ 30 then "양호" else if t ≤ boundary then "주의" else "지연"

/-- Embedding of `assign_risk` (logistics/mapper.py lines 118-126). -/
def assign_risk (status : String) : String :=
  if status = "지연" then "High"
  else if status = "주의" then "Medium"
  else if status = "양호" ∨ status = "미도착" then "Low"
  else "N/A"

/-! ### Stage classification — `refined_hvdc_step` (logistics_mapper.py
lines 57-116) and `updated_hvdc_step_logic` (logistics/mapper.py lines
60-77).  The keyword lists are copied verbatim from the source, including
the duplicated `"conductor"` in the Transmission list. -/

def converterKeywords : List String :=
  ["converter", "valve hall", "thyristor", "igbt", "converter transformer",
   "transformer", "synchronous condenser", "valve support", "cooling unit",
   "valve", "power electronics", "semiconductor"]

def transmissionKeywords : List String :=
  ["dc cable", "submarine cable", "transmission line", "power cable", "conductor",
   "cable termination", "sealing end", "joint", "gis termination", "conduit",
   "busbar", "aluminium busbar", "copper busbar", "bus bar", "bus-bar",
   "cable", "wire", "conductor", "transmission", "power line"]

def filterReactorKeywords : List String :=
  ["ac harmonic filter", "dc filter", "harmonic filter", "smoothing reactor",
   "high frequency filter", "reactor", "capacitor", "lc filter", "ac filter", "insulator", "gis",
   "layer", "layers", "filter layer", "filter bank", "filter unit",
   "reactor bank", "reactor unit", "capacitor bank", "capacitor unit"]

def controlProtectionKeywords : List String :=
  ["scada", "control system", "relay", "protection panel", "monitoring",
   "plc", "hmi", "rtu", "breaker", "busbar protection", "system",
   "control cubicle", "control panel", "control unit", "control box",
   "optical", "fiber", "fibre", "transducer", "sensor", "transmitter",
   "battery", "batteries", "power supply", "ups", "dc power",
   "cubicle", "panel", "cabinet", "enclosure", "housing"]

def groundingKeywords : List String :=
  ["grounding", "earth electrode", "electrode line", "neutral bus", "nbgs", "nbs",
   "earthing", "ground", "earth", "neutral", "grounding system",
   "grounding rod", "grounding wire", "grounding cable"]

def spareKeywords : List String :=
  ["spare", "repair", "tool", "maintenance", "accessories", "consumable", "dummy",
   "spare part", "replacement", "backup", "reserve", "standby",
   "maintenance kit", "repair kit", "tool kit", "tool set"]

/-- Python `any(k in d for k in kws)`. -/
def kwAny (d : String) (kws : List String) : Bool :=
  kws.any (fun k => containsSub d k)

/-- Embedding of `HVDCLogisticsMapper.refined_hvdc_step` (logistics_mapper.py
lines 57-116).  A non-string description is `none` (rejected by the
`isinstance(desc, str)` guard); `not desc.strip()` is the emptiness of the
trimmed string; the lower-cased text is matched against the six keyword
lists in declaration order; `99` is the OTHER / `기타` code. -/
def refined_hvdc_step (desc : Option String) : ℕ :=
  match desc with
  | none => 99
  | some s =>
    if isBlankStr s then 99
    else
      let d := toLowerStr s
      if kwAny d converterKeywords then 1
      else if kwAny d transmissionKeywords then 2
      else if kwAny d filterReactorKeywords then 3
      else if kwAny d controlProtectionKeywords then 4
      else if kwAny d groundingKeywords then 5
      else if kwAny d spareKeywords then 6
      else 99

/-- The ordered rule list of `refined_hvdc_step`: (stage code, keyword set)
in declaration order. -/
def stageRules : List (ℕ × List String) :=
  [(1, converterKeywords), (2, transmissionKeywords), (3, filterReactorKeywords),
   (4, controlProtectionKeywords), (5, groundingKeywords), (6, spareKeywords)]

/-- First-match evaluation over an ordered rule list: the first rule with
any keyword-substring match wins, otherwise 99. -/
def firstMatchAux (d : String) : List (ℕ × List String) → ℕ
  | [] => 99
  | (tag, kws) :: rest => if kwAny d kws then tag else firstMatchAux d rest

/-- Modelled from the spec (§4.2, §9): the stage classifier as an explicit
ordered first-match policy over `stageRules`, with the same guard for a
missing, empty, or non-string description. -/
def stage_first_match (desc : Option String) : ℕ :=
  match desc with
  | none => 99
  | some s =>
    if isBlankStr s then 99
    else firstMatchAux (toLowerStr s) stageRules

/-- The `공정단계_HVDC_Label` mapping of `process_data` (both mapper
modules): pandas `.map` yields a missing label for an unmapped code. -/
def hvdc_stage_label (code : ℕ) : Option String :=
  if code = 1 then some "Converter"
  else if code = 2 then some "Transmission"
  else if code = 3 then some "Filter/Reactor"
  else if code = 4 then some "Control/Protection"
  else if code = 5 then some "Grounding"
  else if code = 6 then some "Spare/Maintenance"
  else if code = 99 then some "기타"
  else none

/-- Embedding of `updated_hvdc_step_logic` (logistics/mapper.py lines
60-77; the identical `updated_hvdc_step` also appears in
create_sample_data.py lines 99-116).  `pd.isna(desc)` is `none`; a
non-null value is stringified by `str(desc)`, so the input here is the
already-stringified lower-case source text's pre-image: we model the
non-null cell as the string `str(desc)` produces. -/
def updated_hvdc_step_logic (desc : Option String) : ℕ :=
  match desc with
  | none => 99
  | some s =>
    let d := toLowerStr s
    if kwAny d ["converter transformer", "valve", "thyristor", "igbt"] then 1
    else if kwAny d ["dc cable", "submarine", "overhead", "transmission"] then 2
    else if kwAny d ["filter", "reactor", "capacitor", "harmonic"] then 3
    else if kwAny d ["scada", "control", "protection", "monitoring"] then 4
    else if kwAny d ["grounding", "electrode", "earth"] then 5
    else if kwAny d ["spare", "repair"] then 6
    else 99

/-! ### Spec-side auxiliary definitions for the step claims -/

/-- Modelled from the spec (§4.3, §8): the lifecycle step as a pure
function of the four milestone presence flags alone, terminal-first. -/
def step_of_flags (mosbP dsvP customsP ataP : Bool) : ℕ :=
  if mosbP then 5
  else if dsvP then 4
  else if customsP then 3
  else if ataP then 2
  else 1

/-- C1 counterexample record: MOSB present (site arrived) but ATA absent. -/
def c1Record : RawRecord := ⟨none, none, none, some 0, false, false, false, false, none⟩

/-! ### scripts/data/validator.py — HVDCQualityChecker

Pandas cell values are modelled by `PyVal`; a pandas-null cell (`None` or
`NaN`) is `vNone`.  Python's dynamic types are modelled by string tags
(`tag_of`), and a column's pandas dtype by a per-column string tag in the
frame.  A row is an association list from column name to value; a frame
carries its column list, its rows and its dtype tags.  The checker's
mutable `self.validation_results` is passed explicitly: every check takes
the current result list and returns the extended list together with its
boolean return value. -/

inductive PyVal where
  | vNone
  | vInt (z : ℤ)
  | vRat (q : ℚ)
  | vStr (s : String)
  | vDate (d : ℤ)
deriving DecidableEq

/-- A row: column name → cell value. A column not present in the row reads
as a null cell. -/
def Row : Type := List (String × PyVal)

def getVal (r : Row) (c : String) : PyVal :=
  match List.lookup c r with
  | some v => v
  | none => PyVal.vNone

structure DFrame where
  cols : List String
  rows : List Row
  dtypes : List (String × String)

def dtype_of (df : DFrame) (c : String) : String :=
  match List.lookup c df.dtypes with
  | some t => t
  | none => "object"

/-- One entry of `self.validation_results`: the `details` payload is
rendered as key/value strings. -/
structure VResult where
  check_name : String
  status : String
  message : String
  details : List (String × String)
deriving DecidableEq

/-- Embedding of `HVDCQualityChecker._add_result` (validator.py lines
27-48): append one result to the list (logging side effects are outside
the core). -/
def add_result (st : List VResult) (check_name status message : String)
    (details : List (String × String)) : List VResult :=
  st ++ [⟨check_name, status, message, details⟩]

/-- Python `"{:.2f}".format` on the exact rational percentages produced
by the checks (round-half-up at the third decimal; the checks only format
exactly representable values, where the two conventions agree). -/
def fmt2 (q : ℚ) : String :=
  let c : ℕ := (Int.floor (q * 100 + 1 / 2)).toNat
  let ip := c / 100
  let fp := c % 100
  toString ip ++ "." ++ (if fp < 10 then "0" else "") ++ toString fp

/-- Number of pandas-null cells of a column: `df[column].isnull().sum()`. -/
def missing_count (df : DFrame) (col : String) : ℕ :=
  (df.rows.filter (fun r => decide (getVal r col = PyVal.vNone))).length

/-- The missing percentage of `check_missing_values` (validator.py line
90): `(missing_count / total_count) * 100 if total_count > 0 else 0`. -/
def missing_percent (df : DFrame) (col : String) : ℚ :=
  if 0 < df.rows.length then
    ((missing_count df col : ℚ) / (df.rows.length : ℚ)) * 100
  else 0

/-- Embedding of `HVDCQualityChecker.check_missing_values` (validator.py
lines 71-106).  The threshold in the message and details is rendered with
the two-decimal formatter (Python prints the float's repr there, e.g.
`0.0`; no claim depends on that text). -/
def check_missing_values (st : List VResult) (df : DFrame) (column_name : String)
    (threshold_percent : ℚ) : List VResult × Bool :=
  if df.cols.contains column_name then
    let mc := missing_count df column_name
    let mp := missing_percent df column_name
    let base := "'" ++ column_name ++ "' 컬럼 결측치: " ++ toString mc ++ "개 ("
      ++ fmt2 mp ++ "%)"
    let exceeded := mp > threshold_percent
    let status := if exceeded then (if threshold_percent = 0 then "FAIL" else "WARN")
      else "PASS"
    let message := if exceeded then
        base ++ " - 허용 임계치(" ++ toString threshold_percent ++ "%) 초과"
      else base
    (add_result st "결측치 확인" status message
      [("column", column_name), ("missing_count", toString mc),
       ("missing_percent", fmt2 mp), ("threshold", toString threshold_percent)],
     if status = "PASS" ∨ (status = "WARN" ∧ 0 < threshold_percent) then true else false)
  else
    (add_result st "결측치 확인" "WARN"
      ("'" ++ column_name ++ "' 컬럼이 존재하지 않아 결측치 검증을 건너뜁니다.")
      [("column", column_name)], true)

/-- Embedding of `HVDCQualityChecker.check_required_columns` (validator.py
lines 50-69). -/
def check_required_columns (st : List VResult) (df : DFrame)
    (required_columns : List String) : List VResult × Bool :=
  let missing := required_columns.filter (fun c => ¬ df.cols.contains c)
  if missing ≠ [] then
    (add_result st "필수 컬럼 확인" "FAIL"
      ("필수 컬럼 누락: " ++ String.intercalate ", " missing)
      (missing.map (fun c => ("missing_column", c))), false)
  else
    (add_result st "필수 컬럼 확인" "PASS" "모든 필수 컬럼이 존재합니다." [], true)

/-- Python's dynamic type of a cell, as a tag (`isinstance` becomes a tag
comparison; `None` has no matching expected type in any configuration). -/
def tag_of : PyVal → String
  | .vNone => "NoneType"
  | .vInt _ => "int"
  | .vRat _ => "float"
  | .vStr _ => "str"
  | .vDate _ => "datetime"

/-- The sample value `check_data_types` inspects: the first cell of the
column, or `None` when the frame is empty or that cell is null. -/
def sample_value (df : DFrame) (col : String) : PyVal :=
  match df.rows.head? with
  | some r => getVal r col
  | none => PyVal.vNone

/-- Embedding of `HVDCQualityChecker.check_data_types` (validator.py lines
108-141): a column passes when the sample value's type or the column's
dtype matches one of the expected type tags; an absent column yields WARN
and is skipped. -/
def check_data_types (st : List VResult) (df : DFrame)
    (column_types : List (String × List String)) : List VResult × Bool :=
  column_types.foldl (fun acc ct =>
    let col := ct.1
    let expected := ct.2
    if df.cols.contains col then
      if expected.contains (tag_of (sample_value df col))
          ∨ expected.contains (dtype_of df col) then
        (add_result acc.1 "데이터 타입 확인" "PASS"
          ("'" ++ col ++ "' 컬럼 타입 일치: " ++ dtype_of df col)
          [("column", col)], acc.2)
      else
        (add_result acc.1 "데이터 타입 확인" "FAIL"
          ("'" ++ col ++ "' 컬럼 타입 불일치. 예상: " ++ String.intercalate ", " expected
            ++ ", 실제: " ++ dtype_of df col)
          [("column", col), ("expected", String.intercalate ", " expected),
           ("actual", dtype_of df col)], false)
    else
      (add_result acc.1 "데이터 타입 확인" "WARN"
        ("'" ++ col ++ "' 컬럼이 존재하지 않아 타입 검증을 건너뜁니다.")
        [("column", col)], acc.2)) (st, true)

/-- Pandas `is_numeric_dtype`, on dtype tags. -/
def is_numeric_dtype (t : String) : Bool :=
  t = "int64" ∨ t = "float64"

/-- Numeric reading of a cell (used on numeric-dtype columns only). -/
def as_rat : PyVal → ℚ
  | .vInt z => (z : ℚ)
  | .vRat q => q
  | _ => 0

/-- The non-null cells of a column, in row order. -/
def non_null_values (df : DFrame) (col : String) : List PyVal :=
  (df.rows.map (fun r => getVal r col)).filter (fun v => decide (v ≠ PyVal.vNone))

/-- Embedding of `HVDCQualityChecker.check_value_ranges` (validator.py
lines 143-186): `none` as a bound models the `float("-inf")` /
`float("inf")` default of `ranges.get`. -/
def check_value_ranges (st : List VResult) (df : DFrame)
    (range_checks : List (String × Option ℚ × Option ℚ)) : List VResult × Bool :=
  range_checks.foldl (fun acc rc =>
    let col := rc.1
    let mn := rc.2.1
    let mx := rc.2.2
    if df.cols.contains col then
      if is_numeric_dtype (dtype_of df col) then
        let out := (non_null_values df col).filter (fun v =>
          (match mn with | some m => decide (as_rat v < m) | none => false)
          || (match mx with | some m => decide (m < as_rat v) | none => false))
        if 0 < out.length then
          (add_result acc.1 "값 범위 확인" "FAIL"
            ("'" ++ col ++ "' 컬럼의 " ++ toString out.length ++ "개 값이 범위를 벗어납니다.")
            [("column", col), ("out_of_range_count", toString out.length)], false)
        else
          (add_result acc.1 "값 범위 확인" "PASS"
            ("'" ++ col ++ "' 컬럼의 모든 값이 범위 내에 있습니다.")
            [("column", col)], acc.2)
      else
        (add_result acc.1 "값 범위 확인" "FAIL"
          ("'" ++ col ++ "' 컬럼이 숫자형이 아닙니다.") [("column", col)], false)
    else
      (add_result acc.1 "값 범위 확인" "WARN"
        ("'" ++ col ++ "' 컬럼이 존재하지 않아 범위 검증을 건너뜁니다.")
        [("column", col)], acc.2)) (st, true)

/-- Pandas `Series.duplicated()`: flags each value that already occurred
at an earlier index. -/
def duplicated_flags (vs : List PyVal) : List Bool :=
  (vs.foldl (fun (acc : List PyVal × List Bool) v =>
    (acc.1 ++ [v], acc.2 ++ [acc.1.contains v])) ([], [])).2

/-- The values marked duplicated, deduplicated (pandas
`series[duplicates].unique()`). -/
def duplicate_values (vs : List PyVal) : List PyVal :=
  ((vs.zip (duplicated_flags vs)).filter (fun p => p.2)).map (fun p => p.1) |>.dedup

/-- Embedding of `HVDCQualityChecker.check_unique_values` (validator.py
lines 188-221). -/
def check_unique_values (st : List VResult) (df : DFrame)
    (unique_columns : List String) : List VResult × Bool :=
  unique_columns.foldl (fun acc col =>
    if df.cols.contains col then
      let vs := df.rows.map (fun r => getVal r col)
      let dup := ((duplicated_flags vs).filter (fun b => b)).length
      if 0 < dup then
        (add_result acc.1 "고유값 확인" "FAIL"
          ("'" ++ col ++ "' 컬럼에 " ++ toString dup ++ "개의 중복값이 있습니다.")
          [("column", col), ("duplicate_count", toString dup),
           ("duplicate_values", toString (duplicate_values vs).length)], false)
      else
        (add_result acc.1 "고유값 확인" "PASS"
          ("'" ++ col ++ "' 컬럼의 모든 값이 고유합니다.") [("column", col)], acc.2)
    else
      (add_result acc.1 "고유값 확인" "WARN"
        ("'" ++ col ++ "' 컬럼이 존재하지 않아 고유값 검증을 건너뜁니다.")
        [("column", col)], acc.2)) (st, true)

/-- Pandas `to_datetime(..., errors='coerce')` on a cell, in a model where
dates arrive already resolved (spec §6 inbound boundary): only a resolved
timestamp parses, everything else coerces to `NaT`. -/
def to_date : PyVal → Option ℤ
  | .vDate d => some d
  | _ => none

/-- Embedding of `HVDCQualityChecker.check_date_sequence` (validator.py
lines 223-268): rows where both dates parse and before > after count as
violations; unparseable dates are excluded from the comparison. -/
def check_date_sequence (st : List VResult) (df : DFrame)
    (date_columns : List (String × String)) : List VResult × Bool :=
  date_columns.foldl (fun acc bc =>
    let before_col := bc.1
    let after_col := bc.2
    if df.cols.contains before_col ∧ df.cols.contains after_col then
      let invalid := df.rows.filter (fun r =>
        match to_date (getVal r before_col), to_date (getVal r after_col) with
        | some b, some a => decide (a < b)
        | _, _ => false)
      if 0 < invalid.length then
        (add_result acc.1 "날짜 순서 확인" "FAIL"
          ("'" ++ before_col ++ "'이 '" ++ after_col ++ "'보다 늦은 경우가 "
            ++ toString invalid.length ++ "건 있습니다.")
          [("before_column", before_col), ("after_column", after_col),
           ("invalid_count", toString invalid.length)], false)
      else
        (add_result acc.1 "날짜 순서 확인" "PASS"
          ("'" ++ before_col ++ "'과 '" ++ after_col ++ "'의 날짜 순서가 올바릅니다.")
          [("before_column", before_col), ("after_column", after_col)], acc.2)
    else
      (add_result acc.1 "날짜 순서 확인" "WARN"
        ("날짜 컬럼 '" ++ before_col ++ "' 또는 '" ++ after_col
          ++ "'이 존재하지 않아 순서 검증을 건너뜁니다.")
        [("before_column", before_col), ("after_column", after_col)], acc.2)) (st, true)

/-- Embedding of `HVDCQualityChecker.check_categorical_values`
(validator.py lines 270-304). -/
def check_categorical_values (st : List VResult) (df : DFrame)
    (category_checks : List (String × List PyVal)) : List VResult × Bool :=
  category_checks.foldl (fun acc cc =>
    let col := cc.1
    let allowed := cc.2
    if df.cols.contains col then
      let invalid := (non_null_values df col).filter (fun v => ¬ allowed.contains v)
      if 0 < invalid.length then
        (add_result acc.1 "카테고리 값 확인" "FAIL"
          ("'" ++ col ++ "' 컬럼에 " ++ toString invalid.length
            ++ "개의 허용되지 않은 값이 있습니다.")
          [("column", col), ("invalid_count", toString invalid.length)], false)
      else
        (add_result acc.1 "카테고리 값 확인" "PASS"
          ("'" ++ col ++ "' 컬럼의 모든 값이 허용된 목록에 포함됩니다.")
          [("column", col)], acc.2)
    else
      (add_result acc.1 "카테고리 값 확인" "WARN"
        ("'" ++ col ++ "' 컬럼이 존재하지 않아 카테고리 값 검증을 건너뜁니다.")
        [("column", col)], acc.2)) (st, true)

/-- The validation configuration (spec §6): each recognized rule group is
optional, mirroring `if "..." in config`.  A missing-value check entry
carries its column and optional threshold (`check_config.get("threshold",
0.0)`). -/
structure VConfig where
  required_columns : Option (List String)
  missing_value_checks : Option (List (String × Option ℚ))
  data_type_checks : Option (List (String × List String))
  range_checks : Option (List (String × Option ℚ × Option ℚ))
  unique_columns : Option (List String)
  date_sequence_checks : Option (List (String × String))
  category_checks : Option (List (String × List PyVal))

/-- Embedding of `HVDCQualityChecker.validate_dataframe` (validator.py
lines 306-350): the prior result list is discarded
(`self.validation_results = []`), then the configured rule groups run in
the fixed source order, each appending its results. -/
def validate_dataframe (_prior : List VResult) (df : DFrame) (config : VConfig) :
    List VResult :=
  let results : List VResult := []
  let results := match config.required_columns with
    | some req => (check_required_columns results df req).1
    | none => results
  let results := match config.missing_value_checks with
    | some checks => checks.foldl
        (fun acc c => (check_missing_values acc df c.1 (c.2.getD 0)).1) results
    | none => results
  let results := match config.data_type_checks with
    | some checks => (check_data_types results df checks).1
    | none => results
  let results := match config.range_checks with
    | some checks => (check_value_ranges results df checks).1
    | none => results
  let results := match config.unique_columns with
    | some cols => (check_unique_values results df cols).1
    | none => results
  let results := match config.date_sequence_checks with
    | some pairs => (check_date_sequence results df pairs).1
    | none => results
  let results := match config.category_checks with
    | some checks => (check_categorical_values results df checks).1
    | none => results
  results

/-! ### Validator facts and claim theorems -/

/-- The example frame of the C7 claim (also the validator module's own
test data, validator.py lines 356-364): column `"NO."` with one null
among 5 rows. -/
def mvExampleRows : List Row :=
  [[("NO.", PyVal.vInt 1)], [("NO.", PyVal.vInt 2)], [("NO.", PyVal.vInt 3)],
   [("NO.", PyVal.vInt 4)], [("NO.", PyVal.vNone)]]

def mvExample : DFrame := ⟨["NO."], mvExampleRows, [("NO.", "float64")]⟩

/-! ### scripts/logistics/mapper.py — `_select_and_filter_columns`
(lines 132-153)

`pd.to_numeric(..., errors='coerce')` is modelled by `to_numeric`:
numbers pass through, decimal-literal strings parse, everything else
(null, dates, non-numeric text) coerces to `NaN` (`none`); pandas
additionally accepts exponent/whitespace forms, which no claim touches.
The assignment `df["NO."] = to_numeric(...)` is a column override,
modelled by prepending the coerced cell; the filter `df["NO."] <=
max_no_filter` keeps exactly the rows whose coerced cell is a number at
most the bound, since any comparison against `NaN` is false; the final
`sort_values("NO.")` sorts ascending on that column. -/

def final_columns : List String :=
  ["NO.", "VENDOR", "MAIN DESCRIPTION (PO)", "SUB DESCRIPTION",
   "공정단계_HVDC_Label", "리드타임(일)", "리드타임 상태", "위험도",
   "INCOTERMS", "DG 분류", "섬 운송 여부", "ATA", "MOSB"]

/-- Numeric value of a list of decimal digits. -/
def digitsVal (cs : List Char) : ℚ :=
  cs.foldl (fun n c => n * 10 + ((c.toNat - 48 : ℕ) : ℚ)) 0

/-- Unsigned decimal literal: digits, optionally with one decimal
point. -/
def parse_unsigned (cs : List Char) : Option ℚ :=
  match cs.splitOn '.' with
  | [a] =>
    if 0 < a.length ∧ a.all Char.isDigit then some (digitsVal a) else none
  | [a, b] =>
    if 0 < a.length ∧ 0 < b.length ∧ (a ++ b).all Char.isDigit then
      some (digitsVal a + digitsVal b / ((10 : ℚ) ^ b.length))
    else none
  | _ => none

/-- Signed decimal literal. -/
def parse_num (s : String) : Option ℚ :=
  match s.toList with
  | '-' :: rest => (parse_unsigned rest).map (fun q => -q)
  | cs => parse_unsigned cs

/-- `pd.to_numeric(cell, errors='coerce')`: `none` is `NaN`. -/
def to_numeric : PyVal → Option ℚ
  | .vNone => none
  | .vInt z => some (z : ℚ)
  | .vRat q => some q
  | .vStr s => parse_num s
  | .vDate _ => none

/-- The column assignment `df["NO."] = pd.to_numeric(df["NO."],
errors='coerce')`, per row. -/
def set_no (r : Row) : Row :=
  ("NO.", match to_numeric (getVal r "NO.") with
    | some n => PyVal.vRat n
    | none => PyVal.vNone) :: r

/-- The row filter `df["NO."] <= max_no_filter` on the coerced column:
false on `NaN`. -/
def keep (maxNo : ℚ) (r : Row) : Bool :=
  match getVal r "NO." with
  | .vRat n => decide (n ≤ maxNo)
  | _ => false

/-- The projection `df[final_columns]`. -/
def project (r : Row) : Row :=
  final_columns.map (fun c => (c, getVal r c))

/-- Sort key of `sort_values("NO.")`; after the filter every surviving
row holds a number in `"NO."`, so the default 0 is never reached there. -/
def no_key (r : Row) : ℚ :=
  match getVal r "NO." with
  | .vRat n => n
  | .vInt z => (z : ℚ)
  | _ => 0

def by_no_le (a b : Row) : Bool :=
  decide (no_key a ≤ no_key b)

/-- Output of `_select_and_filter_columns`: the returned frame's rows and
the logged warnings (emitted only for final columns absent from the
frame, one per column). -/
structure FilterOutput where
  rows : List Row
  warnings : List String

/-- Embedding of `HVDCLogisticsMapper._select_and_filter_columns`
(logistics/mapper.py lines 132-153). -/
def select_and_filter_columns (maxNo : ℚ) (df : DFrame) : FilterOutput :=
  let warnings := (final_columns.filter (fun c => ¬ df.cols.contains c)).map
    (fun c => "최종 컬럼 '" ++ c ++ "'이(가) 없어 NA로 추가합니다.")
  let coerced := df.rows.map set_no
  let kept := coerced.filter (keep maxNo)
  let projected := kept.map project
  ⟨projected.mergeSort by_no_le, warnings⟩

/-- The constructor default of `max_no_filter` (logistics/mapper.py line
20); create_sample_data.py line 137 hard-codes the same bound. -/
def max_no_filter_default : ℚ := 560

/-! ## Theorems for the claims -/

/-- Reduction helper for `classify_status` on a present value. -/
theorem classify_status_some (t : ℤ) :
    classify_status (some t) =
      if t ≤ 30 then "양호" else if t ≤ 60 then "주의" else "지연" := rfl

/-- Reduction helper for `sample_classify_status` on a present value. -/
theorem sample_classify_status_some (t : ℤ) :
    sample_classify_status (some t) =
      if t ≤ 30 then "양호" else if t ≤ 90 then "주의" else "지연" := rfl

/-- Reduction helper for `classify_status_with` on a present value. -/
theorem classify_status_with_some (b t : ℤ) :
    classify_status_with b (some t) =
      if t ≤ 30 then "양호" else if t ≤ b then "주의" else "지연" := rfl

/-- Helper: a present total lead time never classifies as NOT_ARRIVED. -/
theorem classify_status_some_ne (t : ℤ) : classify_status (some t) ≠ "미도착" := by
  rw [classify_status_some]
  split_ifs <;> decide

/-! ## Theorems for the claims -/

/-- C4: for every record the derived step is in {1..5}, and it is a pure
function of only the presence/absence of the four milestone timestamps,
evaluated terminal-first: 5 if MOSB (site_arrival) present, else 4 if
DSV Outdoor (warehouse_out) present, else 3 if Customs Start present,
else 2 if ATA (arrival) present, else 1. -/
theorem determine_step_pure_of_flags :
    ∀ r : RawRecord,
      (1 ≤ determine_step r ∧ determine_step r ≤ 5) ∧
      determine_step r =
        step_of_flags r.mosb.isSome r.dsv.isSome r.customs.isSome r.ata.isSome := by
  rintro ⟨ata, customs, dsv, mosb, mir, shu, das, agi, sd⟩
  cases ata <;> cases customs <;> cases dsv <;> cases mosb <;>
    simp [determine_step, step_of_flags]

/-- C3: for every record, the arrival→customs delta is the raw calendar
delta plus exactly 5 when the resolved site is an island site (AGI or
DAS) — in particular `some (c - a + 5)` when both endpoints are present —
and is the raw delta otherwise (mainland MIR/SHU or UNK); the other two
consecutive deltas and the total arrival→site-arrival lead time are the
unadjusted raw deltas in every case. -/
theorem island_leadtime_adjustment :
    ∀ (r : RawRecord) (a c : ℤ),
      (detect_site r = "AGI" ∨ detect_site r = "DAS" →
        (process_leadtimes r).arrivalToCustoms = (optSub r.customs r.ata).map (· + 5) ∧
        (r.ata = some a → r.customs = some c →
          (process_leadtimes r).arrivalToCustoms = some (c - a + 5))) ∧
      (¬(detect_site r = "AGI" ∨ detect_site r = "DAS") →
        (process_leadtimes r).arrivalToCustoms = optSub r.customs r.ata) ∧
      (process_leadtimes r).customsToWarehouse = optSub r.dsv r.customs ∧
      (process_leadtimes r).warehouseToSite = optSub r.mosb r.dsv ∧
      (process_leadtimes r).totalLeadTime = optSub r.mosb r.ata := by
  intro r a c
  refine ⟨fun h => ⟨?_, fun ha hc => ?_⟩, fun h => ?_, ?_, ?_, ?_⟩
  · simp [process_leadtimes, if_pos h]
  · simp [process_leadtimes, if_pos h, ha, hc, optSub]
  · simp [process_leadtimes, if_neg h]
  · rfl
  · rfl
  · rfl

/-- C3 witness: a record resolved to the island site DAS with
arrival day 0 and customs day 10 gets arrival→customs delta 15. -/
theorem island_leadtime_adjustment_witness :
    (process_leadtimes ⟨some 0, some 10, none, none, false, false, true, false, none⟩).arrivalToCustoms
      = some 15 := by
  have h := island_leadtime_adjustment
    ⟨some 0, some 10, none, none, false, false, true, false, none⟩ 0 10
  have h2 := (h.1 (Or.inr rfl)).2 rfl rfl
  simpa using h2


/-- C1 counterexample: a record with MOSB present but ATA absent derives
step 5 while its total lead time is absent, so its lead-time status is
NOT_ARRIVED — the claimed implication `step = 5 → status ≠ NOT_ARRIVED`
fails on the code. -/
theorem step5_not_arrived_counterexample :
    determine_step c1Record = 5 ∧
    (process_leadtimes c1Record).totalLeadTime = none ∧
    classify_status (process_leadtimes c1Record).totalLeadTime = "미도착" :=
  ⟨rfl, rfl, rfl⟩

/-- C1 amended: if the derived step is 5 and the arrival (ATA) milestone
is present then the derived lead-time status is not NOT_ARRIVED; and
whenever the lead-time status is NOT_ARRIVED the total lead time is
absent. -/
theorem step5_status_consistency :
    ∀ r : RawRecord,
      (determine_step r = 5 → r.ata.isSome = true →
        classify_status (process_leadtimes r).totalLeadTime ≠ "미도착") ∧
      (classify_status (process_leadtimes r).totalLeadTime = "미도착" →
        (process_leadtimes r).totalLeadTime = none) := by
  rintro ⟨ata, customs, dsv, mosb, mir, shu, das, agi, sd⟩
  constructor
  · intro h5 hata
    cases mosb with
    | none =>
      exfalso
      simp only [determine_step] at h5
      split_ifs at h5 <;> simp_all
    | some m =>
      cases ata with
      | none => simp at hata
      | some a =>
        have : (process_leadtimes ⟨some a, customs, dsv, some m, mir, shu, das, agi, sd⟩).totalLeadTime
            = some (m - a) := rfl
        rw [this]
        exact classify_status_some_ne (m - a)
  · intro hst
    cases h : (process_leadtimes ⟨ata, customs, dsv, mosb, mir, shu, das, agi, sd⟩).totalLeadTime with
    | none => rfl
    | some t =>
      rw [h] at hst
      exact absurd hst (classify_status_some_ne t)

/-- C1 witness: a record with both ATA (day 0) and MOSB (day 10)
present has step 5 and a status that is not NOT_ARRIVED. -/
theorem step5_status_consistency_witness :
    classify_status
      (process_leadtimes ⟨some 0, none, none, some 10, false, false, false, false, none⟩).totalLeadTime
      ≠ "미도착" :=
  (step5_status_consistency
    ⟨some 0, none, none, some 10, false, false, false, false, none⟩).1 rfl rfl

/-- C2 counterexample: at a total lead time of 70 days the two
status-derivation call sites disagree — `classify_status`
(logistics/mapper.py, boundary 60) yields DELAYED while the
create_sample_data.py lambda (boundary 90) yields CAUTION — so the
boundary is not a caller-supplied parameter the call sites agree on. -/
theorem status_callsites_counterexample :
    classify_status (some 70) = "지연" ∧
    sample_classify_status (some 70) = "주의" ∧
    "지연" ≠ "주의" := by
  refine ⟨rfl, rfl, by decide⟩

/-- C2 amended: each of the two status-derivation call sites follows the
thresholding absent ⇒ NOT_ARRIVED, ≤ 30 ⇒ ON_TRACK, ≤ boundary ⇒
CAUTION, above ⇒ DELAYED, but with a hard-coded boundary — 60 in
`classify_status` (logistics/mapper.py) and 90 in the
create_sample_data.py lambda — and the two call sites agree exactly on
inputs that are absent, at most 60, or above 90. -/
theorem status_thresholding :
    ∀ (b v : ℤ) (t : Option ℤ),
      classify_status t = classify_status_with 60 t ∧
      sample_classify_status t = classify_status_with 90 t ∧
      classify_status_with b none = "미도착" ∧
      (v ≤ 30 → classify_status_with b (some v) = "양호") ∧
      (30 < v → v ≤ b → classify_status_with b (some v) = "주의") ∧
      (30 < v → b < v → classify_status_with b (some v) = "지연") ∧
      (v ≤ 60 ∨ 90 < v → classify_status (some v) = sample_classify_status (some v)) := by
  intro b v t
  refine ⟨?_, ?_, rfl, ?_, ?_, ?_, ?_⟩
  · cases t <;> rfl
  · cases t <;> rfl
  · intro h
    rw [classify_status_with_some, if_pos h]
  · intro h1 h2
    rw [classify_status_with_some, if_neg (by omega), if_pos h2]
  · intro h1 h2
    rw [classify_status_with_some, if_neg (by omega), if_neg (by omega)]
  · intro h
    rw [classify_status_some, sample_classify_status_some]
    rcases h with h | h <;> split_ifs <;> first | rfl | omega

/-- C2 witness: under boundary 60 a 20-day lead time is ON_TRACK, and the
two call sites agree at 100 days. -/
theorem status_thresholding_witness :
    classify_status_with 60 (some 20) = "양호" ∧
    classify_status (some 100) = sample_classify_status (some 100) :=
  ⟨(status_thresholding 60 20 none).2.2.2.1 (by decide),
   (status_thresholding 60 100 none).2.2.2.2.2.2 (Or.inr (by decide))⟩

/-- C6: risk classification is the total pure mapping DELAYED → HIGH,
CAUTION → MEDIUM, ON_TRACK and NOT_ARRIVED → LOW, anything else → NA; in
particular the risk is NA iff the status is none of the four defined
statuses. -/
theorem assign_risk_total_mapping :
    ∀ s : String,
      assign_risk "지연" = "High" ∧ assign_risk "주의" = "Medium" ∧
      assign_risk "양호" = "Low" ∧ assign_risk "미도착" = "Low" ∧
      (assign_risk s = "N/A" ↔ ¬(s = "지연" ∨ s = "주의" ∨ s = "양호" ∨ s = "미도착")) := by
  intro s
  refine ⟨by decide, by decide, by decide, by decide, ?_⟩
  unfold assign_risk
  split_ifs with h1 h2 h3 <;> simp_all

/-- C5: stage classification is ordered first-match over the six keyword
rules in declaration order Converter, Transmission, Filter/Reactor,
Control/Protection, Grounding, Spare/Maintenance — the code's if-chain
equals explicit first-match evaluation over the ordered rule list, the
first rule with any keyword-substring match on the lower-cased
description winning; a missing or non-string description, an empty
description, and a description matching no rule all yield OTHER (code 99,
label `기타`); in particular "Thyristor Valve Assembly" yields Converter
and "Grounding Electrode" yields Grounding, at both classifier call
sites. -/
theorem stage_classification_first_match :
    ∀ desc : Option String,
      refined_hvdc_step desc = stage_first_match desc ∧
      refined_hvdc_step (some "Thyristor Valve Assembly") = 1 ∧
      hvdc_stage_label (refined_hvdc_step (some "Thyristor Valve Assembly")) = some "Converter" ∧
      refined_hvdc_step (some "Grounding Electrode") = 5 ∧
      hvdc_stage_label (refined_hvdc_step (some "Grounding Electrode")) = some "Grounding" ∧
      refined_hvdc_step (some "") = 99 ∧
      refined_hvdc_step none = 99 ∧
      refined_hvdc_step (some "Unclassifiable Widget") = 99 ∧
      hvdc_stage_label 99 = some "기타" ∧
      updated_hvdc_step_logic (some "Thyristor Valve Assembly") = 1 ∧
      updated_hvdc_step_logic (some "Grounding Electrode") = 5 ∧
      updated_hvdc_step_logic (some "") = 99 ∧
      updated_hvdc_step_logic none = 99 := by
  intro desc
  refine ⟨?_, by decide, by decide, by decide, by decide, by decide, rfl, by decide,
    by decide, by decide, by decide, by decide, rfl⟩
  cases desc with
  | none => rfl
  | some s => simp only [refined_hvdc_step, stage_first_match, stageRules, firstMatchAux]

/-- Helper: a column with a missing value has a positive missing
percentage. -/
theorem missing_percent_pos (df : DFrame) (col : String)
    (h : 0 < missing_count df col) : 0 < missing_percent df col := by
  have hle : missing_count df col ≤ df.rows.length := List.length_filter_le _ _
  have htot : 0 < df.rows.length := lt_of_lt_of_le h hle
  unfold missing_percent
  rw [if_pos htot]
  have h1 : (0 : ℚ) < (missing_count df col : ℚ) := by exact_mod_cast h
  have h2 : (0 : ℚ) < (df.rows.length : ℚ) := by exact_mod_cast htot
  positivity

/-- Helper: the two-decimal rendering of the 20 percent of the C7
example. -/
theorem fmt2_twenty : fmt2 20 = "20.00" := by
  have h : (⌊(20:ℚ) * 100 + 1 / 2⌋ : ℤ) = 2000 := by norm_num
  simp only [fmt2, h]
  decide

/-- Helper: the example frame's missing percentage is exactly 20. -/
theorem mv_example_percent : missing_percent mvExample "NO." = 20 := by
  have hmc : missing_count mvExample "NO." = 1 := by decide
  have hlen : mvExample.rows.length = 5 := by decide
  unfold missing_percent
  rw [if_pos (by decide), hmc, hlen]
  norm_num

/-- C7: the missing-value check computes `missing / total * 100`; a column
absent from the table produces WARN (skip), never FAIL; with threshold 0
any missing value produces FAIL; with a positive threshold an exceeding
percentage produces WARN and a non-exceeding one PASS; and on column
`"NO."` with threshold 0 and one null among 5 rows the result is FAIL
with a message containing `"20.00%"`. -/
theorem missing_value_check_behaviour :
    ∀ (st : List VResult) (df : DFrame) (col : String) (th : ℚ),
      (df.cols.contains col = false →
        ((check_missing_values st df col th).1.getLast?.map VResult.status) = some "WARN") ∧
      (df.cols.contains col = true → th = 0 → 0 < missing_count df col →
        ((check_missing_values st df col th).1.getLast?.map VResult.status) = some "FAIL") ∧
      (df.cols.contains col = true → 0 < th → th < missing_percent df col →
        ((check_missing_values st df col th).1.getLast?.map VResult.status) = some "WARN") ∧
      (df.cols.contains col = true → missing_percent df col ≤ th →
        ((check_missing_values st df col th).1.getLast?.map VResult.status) = some "PASS") ∧
      ((check_missing_values [] mvExample "NO." 0).1.getLast?.map VResult.status
        = some "FAIL") ∧
      (∀ res ∈ (check_missing_values [] mvExample "NO." 0).1,
        containsSub res.message "20.00%" = true) := by
  have hgt : missing_percent mvExample "NO." > 0 := by rw [mv_example_percent]; norm_num
  have hmem : "NO." ∈ mvExample.cols := by decide
  have hmc1 : missing_count mvExample "NO." = 1 := by decide
  intro st df col th
  refine ⟨?_, ?_, ?_, ?_, ?_, ?_⟩
  · intro h
    have h2 : col ∉ df.cols := by simpa using h
    simp [check_missing_values, h2, add_result]
  · intro h h0 hmc
    subst h0
    have h2 : col ∈ df.cols := by simpa using h
    have hpos := missing_percent_pos df col hmc
    simp [check_missing_values, h2, hpos, add_result]
  · intro h hth hpc
    have h2 : col ∈ df.cols := by simpa using h
    simp [check_missing_values, h2, hpc, add_result, ne_of_gt hth]
  · intro h hle
    have h2 : col ∈ df.cols := by simpa using h
    simp [check_missing_values, h2, add_result, not_lt_of_le hle]
  · simp [check_missing_values, add_result, hgt, hmem]
  · intro res hres
    simp [check_missing_values, add_result, hgt, hmem, hmc1,
      mv_example_percent, fmt2_twenty] at hres
    subst hres
    decide

/-- C7 witness: the FAIL branch of the theorem at the concrete example
frame (threshold 0, one null among 5 rows in column `"NO."`). -/
theorem missing_value_check_witness :
    ((check_missing_values [] mvExample "NO." 0).1.getLast?.map VResult.status)
      = some "FAIL" :=
  (missing_value_check_behaviour [] mvExample "NO." 0).2.1 (by decide) rfl
    (by decide)

/-- C9: on a table with zero rows the missing-value check is total — the
missing percentage is defined as 0 (the division by the row count is
guarded) and the check records PASS, for any present column and any
nonnegative threshold. -/
theorem empty_table_missing_check :
    ∀ (df : DFrame) (col : String) (th : ℚ),
      df.rows = [] → df.cols.contains col = true → 0 ≤ th →
      missing_percent df col = 0 ∧
      ((check_missing_values [] df col th).1.getLast?.map VResult.status) = some "PASS" := by
  intro df col th hrows hcol hth
  have hmp : missing_percent df col = 0 := by
    unfold missing_percent
    rw [hrows]
    simp
  refine ⟨hmp, ?_⟩
  have hnot : ¬ (th < missing_percent df col) := by
    rw [hmp]
    exact not_lt.2 hth
  have h2 : col ∈ df.cols := by simpa using hcol
  simp [check_missing_values, h2, add_result, hnot]

/-- C9 witness: the empty frame with column `"NO."` and threshold 0. -/
theorem empty_table_missing_check_witness :
    missing_percent ⟨["NO."], [], []⟩ "NO." = 0 ∧
    ((check_missing_values [] ⟨["NO."], [], []⟩ "NO." 0).1.getLast?.map VResult.status)
      = some "PASS" :=
  empty_table_missing_check ⟨["NO."], [], []⟩ "NO." 0 rfl (by decide) (by norm_num)

/-- C8: `validate_dataframe` discards all results of any prior run before
evaluating — its report is independent of the checker's prior state — and
re-running it on the same table and configuration (in particular with the
first run's report as the prior state) produces the identical report,
with identical result ordering. -/
theorem validate_dataframe_fresh_deterministic :
    ∀ (st1 st2 : List VResult) (df : DFrame) (config : VConfig),
      validate_dataframe st1 df config = validate_dataframe st2 df config ∧
      validate_dataframe (validate_dataframe st1 df config) df config
        = validate_dataframe st1 df config := by
  intro st1 st2 df config
  exact ⟨rfl, rfl⟩

/-- C10: the final projection silently drops records — the returned rows
are exactly (a permutation of) the projections of the rows whose coerced
`"NO."` value is a number at most the bound, so every row whose `"NO."`
is missing, not coercible to a number, or above the bound is excluded;
the survivors are sorted ascending by `"NO."`; the warnings depend only
on the column list, never on the rows, so no warning reports the dropped
rows; and the default bound is 560. -/
theorem select_and_filter_drops_and_sorts :
    ∀ (maxNo : ℚ) (df : DFrame),
      (select_and_filter_columns maxNo df).rows.Perm
        (((df.rows.map set_no).filter (keep maxNo)).map project) ∧
      List.Pairwise (fun a b => no_key a ≤ no_key b)
        (select_and_filter_columns maxNo df).rows ∧
      (∀ r : Row, keep maxNo (set_no r) = true ↔
        ∃ n, to_numeric (getVal r "NO.") = some n ∧ n ≤ maxNo) ∧
      (∀ rows2 : List Row,
        (select_and_filter_columns maxNo ⟨df.cols, rows2, df.dtypes⟩).warnings
          = (select_and_filter_columns maxNo df).warnings) ∧
      max_no_filter_default = 560 := by
  intro maxNo df
  refine ⟨?_, ?_, ?_, fun rows2 => rfl, rfl⟩
  · exact List.mergeSort_perm _ _
  · have htrans : ∀ a b c : Row, by_no_le a b = true → by_no_le b c = true →
        by_no_le a c = true := by
      intro a b c hab hbc
      simp only [by_no_le, decide_eq_true_eq] at hab hbc ⊢
      exact le_trans hab hbc
    have htotal : ∀ a b : Row, (by_no_le a b || by_no_le b a) = true := by
      intro a b
      simp only [by_no_le, Bool.or_eq_true, decide_eq_true_eq]
      exact le_total _ _
    have hs := List.sorted_mergeSort htrans htotal
      (((df.rows.map set_no).filter (keep maxNo)).map project)
    exact hs.imp (fun h => by simpa [by_no_le] using h)
  · intro r
    have hget : getVal (set_no r) "NO." =
        (match to_numeric (getVal r "NO.") with
          | some n => PyVal.vRat n
          | none => PyVal.vNone) := rfl
    cases h : to_numeric (getVal r "NO.") with
    | none =>
      rw [h] at hget
      simp [keep, hget]
    | some n =>
      rw [h] at hget
      simp [keep, hget]

end HVDC
